import Mathlib

/-!
# Verification of the NIP-46 remote-signing backend (`NDKNip46Backend`) and
# the NIP-04 event encryption helpers

A shallow embedding of the backend dispatcher (`handleIncomingEvent`),
the sign-event path (`signEvent`, `pubkeyAllowed`), the method registry
(`handlers` / `setStrategy`) and the `nip04` `encrypt`/`decrypt` helpers,
together with theorems settling the specification's claims about them.

External capabilities that the repository consumes but does not implement
(JSON parsing, the envelope codec's decryption, signature computation,
event serialization) are parameters of the model, collected in `Env`.
Handler-strategy classes and the RPC codec referenced by the backend but
absent from the sources are modelled from the specification where noted.
-/

/-- The structured fields of an unsigned event, as produced by parsing the
single string parameter of a sign-event request. -/
structure EventFields where
  kind : Nat
  content : String
  tags : List (List String)
  created_at : Nat
  pubkey : String
  deriving Repr, DecidableEq

/-- A signed event: the original fields plus the signature produced by the
local signer (`event.sign(this.signer)` fills in `sig` and leaves the
payload fields untouched). -/
structure SignedEvent where
  fields : EventFields
  sig : String
  deriving Repr, DecidableEq

/-- Outcome of the asynchronous permission gate (`permitCallback`): the
promise either resolves with a boolean, or rejects. -/
inductive GateOutcome where
  | resolved (b : Bool)
  | rejected
  deriving Repr, DecidableEq

/-- The permission gate: `(pubkey, method, params) => Promise<boolean>`.
The third argument is the parsed event handed as context by `signEvent`. -/
def Gate : Type := String → String → EventFields → GateOutcome

/-- Exceptions that can propagate out of the handling of one request:
a `JSON.parse` failure on the sign-event payload, or a rejection of the
permission gate's promise.  In the JavaScript source neither is caught
anywhere inside `NDKNip46Backend`. -/
inductive HandlerError where
  | jsonParseError
  | gateRejected
  deriving Repr, DecidableEq

/-- Modelled from the spec: result of `NDKNostrRpc.parseEvent` (the envelope
codec, not part of the sources).  The spec's contract is
`decode(ciphertext, sender, recipientSigner) → Envelope | DecodeError`:
every failure mode (malformed ciphertext, decryption failure, malformed
JSON payload, missing required field) is reported to the caller as the
single `decodeError` kind; decoding does not throw. -/
inductive ParseResult where
  | ok (id : String) (method : String) (params : List String)
  | decodeError
  deriving Repr, DecidableEq

/-- External capabilities consumed by the backend, per the spec's scoping:
the envelope codec, `JSON.parse` on the event payload (`none` models a
thrown `SyntaxError`), the signature primitive, event serialization
(`JSON.stringify(await event.toNostrEvent())`), and the local identity's
public key. -/
structure Env where
  parseEvent : String → ParseResult
  jsonParse : String → Option EventFields
  signFn : EventFields → String
  serialize : SignedEvent → String
  localPubkey : String

/-- What one `strategy.handle(backend, remotePubkey, params)` call did:
its outcome (a result string, absent, or a thrown exception) plus
instrumentation counters for the local signer's sign operation and for
the permission gate. -/
structure HandleOutcome where
  response : Except HandlerError (Option String)
  signCalls : Nat
  gateCalls : Nat
  deriving Repr

/-- An event-handling strategy (`IEventHandlingStrategy.handle`), as a
function of the remote pubkey and the positional string parameters. -/
def Strategy : Type := String → List String → HandleOutcome

/-- An inbound kind-24133 transport event: the sender's pubkey and the
encrypted content. -/
structure TransportEvent where
  pubkey : String
  content : String
  deriving Repr, DecidableEq

/-- What one `handleIncomingEvent` invocation did: the response published
via `rpc.sendResponse(id, remotePubkey, response)` if any, the signer /
gate instrumentation, and the exception escaping the dispatcher if any. -/
structure DispatchOutcome where
  sent : Option (String × String × String)
  signCalls : Nat
  gateCalls : Nat
  crashed : Option HandlerError
  deriving Repr

namespace NDKNip46Backend

/-- `pubkeyAllowed(pubkey, method, params)`: delegates to the permission
callback supplied at construction. -/
def pubkeyAllowed (gate : Gate) (pubkey : String) (method : String)
    (params : EventFields) : GateOutcome :=
  gate pubkey method params

/-- `signEvent(remotePubkey, params)`: takes the first parameter as the
serialized unsigned event, parses it with `JSON.parse` (which throws on
malformed input — including `undefined` when `params` is empty), consults
the gate under method name `sign_event`, returns `undefined` on deny,
signs and returns the event on allow, and lets a gate rejection
propagate.  The pair's second and third components count sign and gate
invocations. -/
def signEvent (env : Env) (gate : Gate) (remotePubkey : String)
    (params : List String) :
    Except HandlerError (Option SignedEvent) × Nat × Nat :=
  match params.head? with
  | none => (Except.error HandlerError.jsonParseError, 0, 0)
  | some eventString =>
    match env.jsonParse eventString with
    | none => (Except.error HandlerError.jsonParseError, 0, 0)
    | some fields =>
      match pubkeyAllowed gate remotePubkey "sign_event" fields with
      | GateOutcome.rejected => (Except.error HandlerError.gateRejected, 0, 1)
      | GateOutcome.resolved false => (Except.ok none, 0, 1)
      | GateOutcome.resolved true =>
          (Except.ok (some { fields := fields, sig := env.signFn fields }), 1, 1)

/-- Modelled from the spec: `SignEventHandlingStrategy` (not in the
sources) — calls `backend.signEvent`, returns absent when it returned
`undefined`, and otherwise "the fully signed, serialized event as the
result string".  A handler-internal failure (the payload parse failure
thrown by `signEvent`, or a gate failure, which "is treated as deny") is
contained by the handler and "yields 'absent' (no response) and is
logged, not surfaced as a protocol error", on the same silent-drop path
as a denial. -/
def signEventStrategy (env : Env) (gate : Gate) : Strategy :=
  fun remotePubkey params =>
    match signEvent env gate remotePubkey params with
    | (Except.error _, s, g) => { response := Except.ok none, signCalls := s, gateCalls := g }
    | (Except.ok none, s, g) => { response := Except.ok none, signCalls := s, gateCalls := g }
    | (Except.ok (some ev), s, g) =>
        { response := Except.ok (some (env.serialize ev)), signCalls := s, gateCalls := g }

/-- Modelled from the spec: `ConnectEventHandlingStrategy` (not in the
sources) — "always produces a fixed acknowledgment result (e.g., the
literal string \"ack\")"; does not consult the gate. -/
def connectStrategy : Strategy :=
  fun _ _ => { response := Except.ok (some "ack"), signCalls := 0, gateCalls := 0 }

/-- Modelled from the spec: `GetPublicKeyHandlingStrategy` (not in the
sources) — "returns the local identity's public key as the result,
unconditionally — this operation discloses no secret and is not gated". -/
def getPublicKeyStrategy (env : Env) : Strategy :=
  fun _ _ => { response := Except.ok (some env.localPubkey), signCalls := 0, gateCalls := 0 }

/-- Modelled from the spec: `DescribeEventHandlingStrategy` (not in the
sources) — "returns an enumeration of all currently registered method
names as the result"; not gated. -/
def describeStrategy : Strategy :=
  fun _ _ =>
    { response := Except.ok (some (String.intercalate ","
        ["connect", "sign_event", "get_public_key", "describe"])),
      signCalls := 0, gateCalls := 0 }

/-- The initial value of the `handlers` map, seeded with the four built-in
strategies keyed by their method names. -/
def handlers (env : Env) (gate : Gate) : String → Option Strategy :=
  fun m =>
    if m = "connect" then some connectStrategy
    else if m = "sign_event" then some (signEventStrategy env gate)
    else if m = "get_public_key" then some (getPublicKeyStrategy env)
    else if m = "describe" then some describeStrategy
    else none

/-- `setStrategy(method, strategy)`: `this.handlers[method] = strategy` —
a plain property write on the handlers map, overwriting any previous
entry for that name. -/
def setStrategy (hs : String → Option Strategy) (method : String)
    (strategy : Strategy) : String → Option Strategy :=
  fun m => if m = method then some strategy else hs m

/-- `handleIncomingEvent(event)`: decode via `rpc.parseEvent`, look the
method up in `handlers`, run the strategy if one is registered (logging
and dropping otherwise), and publish the response via
`rpc.sendResponse(id, remotePubkey, response)` only when the result
string is truthy (`if (response)` — the empty string is falsy).

When decoding yields a `DecodeError` value, the destructuring
`const { id, method, params } = ...` leaves `method` undefined, and the
property access `this.handlers[method]` coerces the key to the string
`"undefined"`.  An exception thrown by the strategy propagates out of
the dispatcher (there is no try/catch in the source). -/
def handleIncomingEvent (env : Env) (hs : String → Option Strategy)
    (event : TransportEvent) : DispatchOutcome :=
  match env.parseEvent event.content with
  | ParseResult.decodeError =>
    match hs "undefined" with
    | none => { sent := none, signCalls := 0, gateCalls := 0, crashed := none }
    | some strategy =>
      match strategy event.pubkey [] with
      | { response := Except.error e, signCalls := s, gateCalls := g } =>
          { sent := none, signCalls := s, gateCalls := g, crashed := some e }
      | { response := Except.ok none, signCalls := s, gateCalls := g } =>
          { sent := none, signCalls := s, gateCalls := g, crashed := none }
      | { response := Except.ok (some r), signCalls := s, gateCalls := g } =>
          if r = "" then { sent := none, signCalls := s, gateCalls := g, crashed := none }
          else { sent := some ("undefined", event.pubkey, r), signCalls := s,
                 gateCalls := g, crashed := none }
  | ParseResult.ok id method params =>
    match hs method with
    | none => { sent := none, signCalls := 0, gateCalls := 0, crashed := none }
    | some strategy =>
      match strategy event.pubkey params with
      | { response := Except.error e, signCalls := s, gateCalls := g } =>
          { sent := none, signCalls := s, gateCalls := g, crashed := some e }
      | { response := Except.ok none, signCalls := s, gateCalls := g } =>
          { sent := none, signCalls := s, gateCalls := g, crashed := none }
      | { response := Except.ok (some r), signCalls := s, gateCalls := g } =>
          if r = "" then { sent := none, signCalls := s, gateCalls := g, crashed := none }
          else { sent := some (id, event.pubkey, r), signCalls := s,
                 gateCalls := g, crashed := none }

end NDKNip46Backend

/-- A signer as consumed by the nip04 helpers: `encrypt(recipient, value)`
and `decrypt(sender, value)`, keyed here by the other party's pubkey. -/
structure NDKSigner where
  encryptFn : String → String → String
  decryptFn : String → String → String

/-- The slice of an NDK instance the nip04 helpers touch: its optional
signer. -/
structure NDKInstance where
  signer : Option NDKSigner

/-- The other party of an encryption: an `NDKUser`, identified by pubkey. -/
structure NDKUser where
  pubkey : String
  deriving Repr, DecidableEq

/-- The `NDKEvent` fields visible to the nip04 helpers: the optional
associated NDK instance, the mutable `content`, and the remaining fields
that the helpers must leave untouched. -/
structure NDKEvent where
  ndk : Option NDKInstance
  content : String
  kind : Nat
  tags : List (List String)
  created_at : Nat
  pubkey : String
  id : String
  sig : Option String

namespace nip04

/-- `ndk.assertSigner()`: fails when the instance has no signer attached
(the helpers call it before reading `this.ndk.signer!`). -/
def assertSigner (n : NDKInstance) : Except String Unit :=
  match n.signer with
  | some _ => Except.ok ()
  | none => Except.error "Signer required"

/-- Resolve the signer to use, as both helpers do: an explicit `signer`
argument wins; otherwise the event must have an NDK instance (else
`throw new Error('No signer available')`), whose signer is taken after
`assertSigner`. -/
def resolveSigner (ev : NDKEvent) (signer : Option NDKSigner) :
    Except String NDKSigner :=
  match signer with
  | some s => Except.ok s
  | none =>
    match ev.ndk with
    | none => Except.error "No signer available"
    | some n =>
      match assertSigner n with
      | Except.error e => Except.error e
      | Except.ok _ =>
        match n.signer with
        | some s => Except.ok s
        | none => Except.error "No signer available"

/-- `encrypt(recipient, signer?)`: resolves the signer, then replaces
`this.content` with `signer.encrypt(recipient, this.content)`.  The pair
returns the thrown error (if any) and the event's state after the call:
when the throw happens, the content assignment never runs. -/
def encrypt (ev : NDKEvent) (recipient : NDKUser) (signer : Option NDKSigner) :
    Except String Unit × NDKEvent :=
  match resolveSigner ev signer with
  | Except.error e => (Except.error e, ev)
  | Except.ok s =>
      (Except.ok (), { ev with content := s.encryptFn recipient.pubkey ev.content })

/-- `decrypt(sender, signer?)`: resolves the signer, then replaces
`this.content` with `signer.decrypt(sender, this.content)`. -/
def decrypt (ev : NDKEvent) (sender : NDKUser) (signer : Option NDKSigner) :
    Except String Unit × NDKEvent :=
  match resolveSigner ev signer with
  | Except.error e => (Except.error e, ev)
  | Except.ok s =>
      (Except.ok (), { ev with content := s.decryptFn sender.pubkey ev.content })

end nip04

/-! ## Concrete instances used by the witness theorems -/

/-- Concrete event fields used by witnesses. -/
def testFields : EventFields :=
  { kind := 1, content := "hi", tags := [], created_at := 1700000000,
    pubkey := "remotepk" }

/-- A concrete environment: one payload string (`"evt"`) parses to
`testFields`, one transport content (`"good:" ++ m`) decodes to a request
for method `m`, everything else fails to decode. -/
def testEnv : Env :=
  { parseEvent := fun c =>
      if c = "good:sign_event" then ParseResult.ok "id1" "sign_event" ["evt"]
      else if c = "good:get_public_key" then ParseResult.ok "id2" "get_public_key" []
      else if c = "good:unknown-op" then ParseResult.ok "id3" "unknown-op" []
      else if c = "good:badpayload" then ParseResult.ok "id4" "sign_event" ["notjson"]
      else ParseResult.decodeError,
    jsonParse := fun s => if s = "evt" then some testFields else none,
    signFn := fun _ => "deadbeef",
    serialize := fun ev => String.append "signed:" ev.sig,
    localPubkey := "localpk" }

/-- A gate that always denies. -/
def denyGate : Gate := fun _ _ _ => GateOutcome.resolved false

/-- A gate that always allows. -/
def allowGate : Gate := fun _ _ _ => GateOutcome.resolved true

/-- A gate whose promise always rejects. -/
def rejectGate : Gate := fun _ _ _ => GateOutcome.rejected

/-- A strategy whose result is the empty string (used to witness the
truthiness check on handler results). -/
def emptyStringStrategy : Strategy :=
  fun _ _ => { response := Except.ok (some ""), signCalls := 0, gateCalls := 0 }

/-! ## Claims -/

open NDKNip46Backend

/-- C1: for every sign-event request for which the permission gate returns
false, the dispatcher publishes no response and the local signer's sign
operation is never invoked during the handling of that request. -/
theorem gate_deny_no_sign_no_response
    (env : Env) (gate : Gate) (event : TransportEvent)
    (id : String) (params : List String) (s : String) (f : EventFields)
    (hparse : env.parseEvent event.content = ParseResult.ok id "sign_event" params)
    (hhead : params.head? = some s)
    (hjson : env.jsonParse s = some f)
    (hgate : gate event.pubkey "sign_event" f = GateOutcome.resolved false) :
    (handleIncomingEvent env (handlers env gate) event).sent = none
    ∧ (handleIncomingEvent env (handlers env gate) event).signCalls = 0 := by
  simp [handleIncomingEvent, handlers, signEventStrategy, signEvent,
    pubkeyAllowed, hparse, hhead, hjson, hgate]

/-- Witness for C1 at a concrete denied sign-event request. -/
theorem gate_deny_no_sign_no_response_witness :
    (handleIncomingEvent testEnv (handlers testEnv denyGate)
        { pubkey := "remotepk", content := "good:sign_event" }).sent = none
    ∧ (handleIncomingEvent testEnv (handlers testEnv denyGate)
        { pubkey := "remotepk", content := "good:sign_event" }).signCalls = 0 :=
  gate_deny_no_sign_no_response testEnv denyGate
    { pubkey := "remotepk", content := "good:sign_event" }
    "id1" ["evt"] "evt" testFields rfl rfl rfl rfl

/-- C2: for every sign-event request for which the permission gate's
promise rejects, the dispatcher never proceeds to the privileged sign
operation and publishes no response carrying a signature. -/
theorem gate_rejection_no_sign_no_response
    (env : Env) (gate : Gate) (event : TransportEvent)
    (id : String) (params : List String) (s : String) (f : EventFields)
    (hparse : env.parseEvent event.content = ParseResult.ok id "sign_event" params)
    (hhead : params.head? = some s)
    (hjson : env.jsonParse s = some f)
    (hgate : gate event.pubkey "sign_event" f = GateOutcome.rejected) :
    (handleIncomingEvent env (handlers env gate) event).sent = none
    ∧ (handleIncomingEvent env (handlers env gate) event).signCalls = 0 := by
  simp [handleIncomingEvent, handlers, signEventStrategy, signEvent,
    pubkeyAllowed, hparse, hhead, hjson, hgate]

/-- Witness for C2 at a concrete sign-event request whose gate rejects. -/
theorem gate_rejection_no_sign_no_response_witness :
    (handleIncomingEvent testEnv (handlers testEnv rejectGate)
        { pubkey := "remotepk", content := "good:sign_event" }).sent = none
    ∧ (handleIncomingEvent testEnv (handlers testEnv rejectGate)
        { pubkey := "remotepk", content := "good:sign_event" }).signCalls = 0 :=
  gate_rejection_no_sign_no_response testEnv rejectGate
    { pubkey := "remotepk", content := "good:sign_event" }
    "id1" ["evt"] "evt" testFields rfl rfl rfl rfl

/-- C3: for every sign-event request whose single parameter is a
syntactically valid unsigned event and whose gate resolves true, the
handler invokes the local signer's sign operation exactly once and
returns as its result the serialization of the signed event built from
exactly the parsed input fields. -/
theorem gate_allow_signs_and_returns
    (env : Env) (gate : Gate) (remotePubkey : String)
    (params : List String) (s : String) (f : EventFields)
    (hhead : params.head? = some s)
    (hjson : env.jsonParse s = some f)
    (hgate : gate remotePubkey "sign_event" f = GateOutcome.resolved true) :
    signEventStrategy env gate remotePubkey params =
      { response := Except.ok (some (env.serialize { fields := f, sig := env.signFn f })),
        signCalls := 1, gateCalls := 1 } := by
  simp [signEventStrategy, signEvent, pubkeyAllowed, hhead, hjson, hgate]

/-- Witness for C3 at a concrete allowed sign-event request. -/
theorem gate_allow_signs_and_returns_witness :
    signEventStrategy testEnv allowGate "remotepk" ["evt"] =
      { response := Except.ok (some "signed:deadbeef"),
        signCalls := 1, gateCalls := 1 } :=
  gate_allow_signs_and_returns testEnv allowGate "remotepk" ["evt"] "evt"
    testFields rfl rfl rfl

/-- C4: every inbound message whose decode fails is dropped: no response
is sent and no exception escapes the dispatcher (given that no handler is
registered under the key `"undefined"` that the failed destructuring
produces). -/
theorem decode_failure_dropped
    (env : Env) (hs : String → Option Strategy) (event : TransportEvent)
    (hparse : env.parseEvent event.content = ParseResult.decodeError)
    (hundef : hs "undefined" = none) :
    handleIncomingEvent env hs event =
      { sent := none, signCalls := 0, gateCalls := 0, crashed := none } := by
  simp [handleIncomingEvent, hparse, hundef]

/-- Witness for C4 at a concrete undecodable message. -/
theorem decode_failure_dropped_witness :
    handleIncomingEvent testEnv (handlers testEnv denyGate)
        { pubkey := "remotepk", content := "garbage" } =
      { sent := none, signCalls := 0, gateCalls := 0, crashed := none } :=
  decode_failure_dropped testEnv (handlers testEnv denyGate)
    { pubkey := "remotepk", content := "garbage" } rfl rfl

/-- C5: for every sign-event request whose payload parameter fails to
parse into structured event fields (missing or malformed), the handler's
result is absent: no response is sent, neither the signer nor the gate
is invoked, and no exception escapes the dispatcher — the failure stays
on the silent-drop path and is never surfaced to the remote sender. -/
theorem sign_event_parse_failure_silent_drop
    (env : Env) (gate : Gate) (event : TransportEvent)
    (id : String) (params : List String)
    (hparse : env.parseEvent event.content = ParseResult.ok id "sign_event" params)
    (hfail : params.head?.bind env.jsonParse = none) :
    handleIncomingEvent env (handlers env gate) event =
      { sent := none, signCalls := 0, gateCalls := 0, crashed := none } := by
  match hh : params.head? with
  | none =>
    simp [handleIncomingEvent, handlers, signEventStrategy, signEvent, hparse, hh]
  | some s =>
    rw [hh, Option.some_bind] at hfail
    simp [handleIncomingEvent, handlers, signEventStrategy, signEvent, hparse, hh, hfail]

/-- Witness for C5 at a concrete malformed payload. -/
theorem sign_event_parse_failure_silent_drop_witness :
    handleIncomingEvent testEnv (handlers testEnv allowGate)
        { pubkey := "remotepk", content := "good:badpayload" } =
      { sent := none, signCalls := 0, gateCalls := 0, crashed := none } :=
  sign_event_parse_failure_silent_drop testEnv allowGate
    { pubkey := "remotepk", content := "good:badpayload" }
    "id4" ["notjson"] rfl rfl

/-- C6: for every request envelope naming a method with no registered
handler, the dispatcher publishes no response and no exception escapes. -/
theorem unknown_method_dropped
    (env : Env) (hs : String → Option Strategy) (event : TransportEvent)
    (id m : String) (params : List String)
    (hparse : env.parseEvent event.content = ParseResult.ok id m params)
    (hnone : hs m = none) :
    handleIncomingEvent env hs event =
      { sent := none, signCalls := 0, gateCalls := 0, crashed := none } := by
  simp [handleIncomingEvent, hparse, hnone]

/-- Witness for C6 at a concrete request with method `unknown-op`. -/
theorem unknown_method_dropped_witness :
    handleIncomingEvent testEnv (handlers testEnv denyGate)
        { pubkey := "remotepk", content := "good:unknown-op" } =
      { sent := none, signCalls := 0, gateCalls := 0, crashed := none } :=
  unknown_method_dropped testEnv (handlers testEnv denyGate)
    { pubkey := "remotepk", content := "good:unknown-op" }
    "id3" "unknown-op" [] rfl rfl

/-- C7: for every valid request envelope naming the registered, non-gated
method get_public_key, the dispatcher publishes a response whose id
equals the request's id and whose result (the local public key) is
present, and the permission gate is never consulted. -/
theorem get_public_key_responds
    (env : Env) (gate : Gate) (event : TransportEvent)
    (id : String) (params : List String)
    (hparse : env.parseEvent event.content = ParseResult.ok id "get_public_key" params)
    (hpk : env.localPubkey ≠ "") :
    handleIncomingEvent env (handlers env gate) event =
      { sent := some (id, event.pubkey, env.localPubkey),
        signCalls := 0, gateCalls := 0, crashed := none } := by
  simp [handleIncomingEvent, handlers, getPublicKeyStrategy, hparse, hpk]

/-- Witness for C7 at a concrete get_public_key request. -/
theorem get_public_key_responds_witness :
    handleIncomingEvent testEnv (handlers testEnv denyGate)
        { pubkey := "remotepk", content := "good:get_public_key" } =
      { sent := some ("id2", "remotepk", "localpk"),
        signCalls := 0, gateCalls := 0, crashed := none } :=
  get_public_key_responds testEnv denyGate
    { pubkey := "remotepk", content := "good:get_public_key" }
    "id2" [] rfl (by decide)

/-- C8: registering a handler and then resolving its name yields the most
recently registered handler; registering over an existing name succeeds
(last registration wins) and leaves every other name unchanged; and
resolving a name never registered (neither a built-in nor set later)
yields none. -/
theorem registry_last_registration_wins
    (hs : String → Option Strategy) (m m' : String) (s1 s2 : Strategy) :
    setStrategy hs m s1 m = some s1
    ∧ setStrategy (setStrategy hs m s1) m s2 m = some s2
    ∧ (m' ≠ m → setStrategy hs m s1 m' = hs m')
    ∧ (∀ env gate, m' ≠ "connect" → m' ≠ "sign_event" →
        m' ≠ "get_public_key" → m' ≠ "describe" → handlers env gate m' = none) := by
  refine ⟨by simp [setStrategy], by simp [setStrategy], fun h => by simp [setStrategy, h],
    fun env gate h1 h2 h3 h4 => by simp [handlers, h1, h2, h3, h4]⟩

/-- Witness for C8 at concrete method names and strategies. -/
theorem registry_last_registration_wins_witness :
    setStrategy (handlers testEnv denyGate) "foo" connectStrategy "foo" = some connectStrategy
    ∧ setStrategy (setStrategy (handlers testEnv denyGate) "foo" connectStrategy)
        "foo" describeStrategy "foo" = some describeStrategy
    ∧ setStrategy (handlers testEnv denyGate) "foo" connectStrategy "bar"
        = handlers testEnv denyGate "bar"
    ∧ handlers testEnv denyGate "bar" = none := by
  have h := registry_last_registration_wins (handlers testEnv denyGate)
    "foo" "bar" connectStrategy describeStrategy
  exact ⟨h.1, h.2.1, h.2.2.1 (by decide),
    h.2.2.2 testEnv denyGate (by decide) (by decide) (by decide) (by decide)⟩

/-- C9: when the resolved handler returns the empty string as its result,
the dispatcher sends no response: the presence check on the handler
result is a truthiness test, and the empty string is falsy. -/
theorem empty_string_result_no_response
    (env : Env) (hs : String → Option Strategy) (event : TransportEvent)
    (id m : String) (params : List String) (strat : Strategy) (n g : Nat)
    (hparse : env.parseEvent event.content = ParseResult.ok id m params)
    (hstrat : hs m = some strat)
    (hres : strat event.pubkey params =
      { response := Except.ok (some ""), signCalls := n, gateCalls := g }) :
    (handleIncomingEvent env hs event).sent = none := by
  simp [handleIncomingEvent, hparse, hstrat, hres]

/-- Witness for C9: a handler registered for `unknown-op` that returns the
empty string produces no response. -/
theorem empty_string_result_no_response_witness :
    (handleIncomingEvent testEnv
        (setStrategy (handlers testEnv denyGate) "unknown-op" emptyStringStrategy)
        { pubkey := "remotepk", content := "good:unknown-op" }).sent = none :=
  empty_string_result_no_response testEnv
    (setStrategy (handlers testEnv denyGate) "unknown-op" emptyStringStrategy)
    { pubkey := "remotepk", content := "good:unknown-op" }
    "id3" "unknown-op" [] emptyStringStrategy 0 0 rfl rfl rfl

/-- C10: with no signer argument and no associated NDK instance, `encrypt`
and `decrypt` throw `'No signer available'` and leave the event (in
particular its content) unchanged; with a signer available — passed
explicitly or resolved from the NDK instance — only the content field is
replaced and every other field stays unchanged. -/
theorem nip04_signer_resolution_and_content_update
    (ev : NDKEvent) (u : NDKUser) (s : NDKSigner) :
    (ev.ndk = none →
      nip04.encrypt ev u none = (Except.error "No signer available", ev)
      ∧ nip04.decrypt ev u none = (Except.error "No signer available", ev))
    ∧ nip04.encrypt ev u (some s) =
        (Except.ok (), { ev with content := s.encryptFn u.pubkey ev.content })
    ∧ nip04.decrypt ev u (some s) =
        (Except.ok (), { ev with content := s.decryptFn u.pubkey ev.content })
    ∧ (∀ n : NDKInstance, ev.ndk = some n → n.signer = some s →
        nip04.encrypt ev u none =
          (Except.ok (), { ev with content := s.encryptFn u.pubkey ev.content })
        ∧ nip04.decrypt ev u none =
          (Except.ok (), { ev with content := s.decryptFn u.pubkey ev.content })) := by
  refine ⟨fun h => ?_, ?_, ?_, fun n hn hsig => ?_⟩
  · constructor <;> simp [nip04.encrypt, nip04.decrypt, nip04.resolveSigner, h]
  · simp [nip04.encrypt, nip04.resolveSigner]
  · simp [nip04.decrypt, nip04.resolveSigner]
  · constructor <;>
      simp [nip04.encrypt, nip04.decrypt, nip04.resolveSigner, nip04.assertSigner, hn, hsig]

/-- Witness for C10 at a concrete event, user and signer. -/
theorem nip04_signer_resolution_witness :
    nip04.encrypt
        { ndk := none, content := "hello", kind := 4, tags := [], created_at := 1,
          pubkey := "p", id := "i", sig := none }
        { pubkey := "rpk" } none =
      (Except.error "No signer available",
        { ndk := none, content := "hello", kind := 4, tags := [], created_at := 1,
          pubkey := "p", id := "i", sig := none })
    ∧ nip04.encrypt
        { ndk := none, content := "hello", kind := 4, tags := [], created_at := 1,
          pubkey := "p", id := "i", sig := none }
        { pubkey := "rpk" }
        (some { encryptFn := fun pk m => String.append pk m,
                decryptFn := fun pk m => String.append m pk }) =
      (Except.ok (),
        { ndk := none, content := "rpkhello", kind := 4, tags := [], created_at := 1,
          pubkey := "p", id := "i", sig := none }) := by
  have h := nip04_signer_resolution_and_content_update
    { ndk := none, content := "hello", kind := 4, tags := [], created_at := 1,
      pubkey := "p", id := "i", sig := none }
    { pubkey := "rpk" }
    { encryptFn := fun pk m => String.append pk m,
      decryptFn := fun pk m => String.append m pk }
  exact ⟨(h.1 rfl).1, h.2.1⟩
